import Mathlib

/-!
Shallow embedding of `src/load_testing.py`: the request dispatcher
(`send_request`), the worker-pool scheduler (`parallel_execute_requests`)
and the metrics aggregator (`generate_report`), together with proofs of the
specified properties.

Modelling choices:
* Python floats (latencies, rates, jitter) are modelled as exact rationals.
* The network is an oracle: `send_request` receives a function from the
  posted payload to the observable result of the HTTP call (a status code,
  raw body text, the outcome of extracting `choices[0].message.content`,
  and the elapsed wall-clock time — or a raised transport exception).
* Thread-pool nondeterminism is modelled by an explicit completion order:
  `as_completed` yields the submitted futures in some permutation of the
  submission order.
-/

namespace LoadTesting

/-- One chat message inside the request payload. -/
structure Message where
  role : String
  content : String
deriving DecidableEq

/-- The JSON payload built at the top of `send_request`
(`src/load_testing.py` lines 11-17). -/
structure Payload where
  model : String
  messages : List Message
  temperature : ℚ
  max_tokens : ℕ
  stream : Bool
deriving DecidableEq

/-- What one HTTP POST observably produces.  `response status text parsed
elapsed` is a completed response: its status code, its raw body text, the
result of `response.json()["choices"][0]["message"]["content"]` (`Except`
carries the exception text when decoding or key access raises), and the
elapsed wall-clock time of the call.  `failure msg` is an exception raised
by the transport layer (connection error, timeout, ...) with text
`str(e) = msg`. -/
inductive NetResult where
  | response (status : ℕ) (text : String) (parsed : Except String String) (elapsed : ℚ)
  | failure (msg : String)

/-- The three result-dict shapes returned by `send_request`
(`src/load_testing.py` lines 28-33, 35-40 and 42-46). -/
inductive RequestOutcome where
  | success (latency : ℚ) (tokens : ℕ) (request_id : ℕ)
  | httpError (status : ℕ) (error : String) (request_id : ℕ)
  | transportError (error : String) (request_id : ℕ)
deriving DecidableEq

/-- Python field access result["success"]. -/
def RequestOutcome.isSuccess : RequestOutcome → Bool
  | .success .. => true
  | _ => false

/-- Python field access result["request_id"]: present in all three dict shapes. -/
def RequestOutcome.request_id : RequestOutcome → ℕ
  | .success _ _ i => i
  | .httpError _ _ i => i
  | .transportError _ i => i

/-- Python result.get("latency"): the key exists only in the success dict. -/
def RequestOutcome.latencyVal : RequestOutcome → Option ℚ
  | .success l _ _ => some l
  | _ => none

/-- Python result.get("tokens"): the key exists only in the success dict. -/
def RequestOutcome.tokensVal : RequestOutcome → Option ℕ
  | .success _ t _ => some t
  | _ => none

/-- Python result.get("status"): the key exists only in the HTTP-error dict. -/
def RequestOutcome.statusCode : RequestOutcome → Option ℕ
  | .httpError s _ _ => some s
  | _ => none

/-- Python result.get("error"): the key exists in both failure dict shapes. -/
def RequestOutcome.errorText : RequestOutcome → Option String
  | .httpError _ e _ => some e
  | .transportError e _ => some e
  | _ => none

/-- Python `str.split()` with no separator, on a character list: split on
runs of whitespace, dropping empty pieces.  `acc` holds the characters of
the word currently being read, reversed. -/
def splitWsAux (acc : List Char) : List Char → List (List Char)
  | [] => if acc.isEmpty then [] else [acc.reverse]
  | c :: cs =>
    if c.isWhitespace then
      if acc.isEmpty then splitWsAux [] cs else acc.reverse :: splitWsAux [] cs
    else
      splitWsAux (c :: acc) cs

/-- Python content.split(). -/
def pySplit (s : String) : List String :=
  (splitWsAux [] s.data).map fun w => ⟨w⟩

/-- Python len(content.split()) (src/load_testing.py line 27). -/
def tokenCount (content : String) : ℕ := (pySplit content).length

/-- Python `s[:200]` (character slice). -/
def pyTruncate (s : String) : String := ⟨s.data.take 200⟩

/-- The payload dict literal of `send_request`
(`src/load_testing.py` lines 11-17). -/
def buildPayload (prompt : String) (max_tokens : ℕ) (temperature : ℚ) : Payload :=
  { model := "Qwen3-1.7B-Q8_0"
    messages := [{ role := "user", content := prompt }]
    temperature := temperature
    max_tokens := max_tokens
    stream := false }

/-- The function send_request (src/load_testing.py lines 9-46).  Here net is the network
oracle for this one call; `url` and the constant header only route the
request.  Status 200: the body is decoded and the whitespace tokens of the
content are counted; decoding/key errors raise and are caught by the same
`except` as transport errors.  Any other status yields the HTTP-error dict
with `response.text[:200] if response.text else ""`. -/
def send_request (net : Payload → NetResult) (url prompt : String) (request_id : ℕ)
    (max_tokens : ℕ := 128) (temperature : ℚ := 7/10) : RequestOutcome :=
  let payload := buildPayload prompt max_tokens temperature
  match net payload with
  | .response status text parsed elapsed =>
    if status = 200 then
      match parsed with
      | .ok content => .success elapsed (tokenCount content) request_id
      | .error msg => .transportError msg request_id
    else
      .httpError status (if text.isEmpty then "" else pyTruncate text) request_id
  | .failure msg => .transportError msg request_id

/-- The function parallel_execute_requests (src/load_testing.py lines 48-72).
Futures are submitted for ids `0 .. total_requests-1`; `net i` is the
network behaviour seen by request `i`; `completionOrder` is the order in
which `as_completed` yields the futures (the executor guarantees it is a
permutation of the submitted ids).  `max_workers` and `jitter` shape
timing only, never the collected data. -/
def parallel_execute_requests (net : ℕ → Payload → NetResult) (url prompt : String)
    (total_requests : ℕ) (max_workers : ℕ := 10) (jitter : ℚ := 0)
    (completionOrder : List ℕ := List.range total_requests) : List RequestOutcome :=
  completionOrder.map fun i => send_request (net i) url prompt i

/-- The `config` dict assembled in `main` (`src/load_testing.py`
lines 148-154). -/
structure Config where
  url : String
  prompt : String
  total_requests : ℕ
  max_workers : ℕ
  jitter : ℚ
deriving DecidableEq

/-- Python dict report["summary"]: the always-present fields plus the six
success-statistics keys, which exist only when a success occurred. -/
structure Summary where
  total_requests : ℕ
  concurrency : ℕ
  jitter : ℚ
  success_rate : ℚ
  failed : ℕ
  avg_latency : Option ℚ := none
  min_latency : Option ℚ := none
  max_latency : Option ℚ := none
  total_tokens : Option ℕ := none
  avg_tokens_per_request : Option ℚ := none
  tokens_per_second : Option ℚ := none

/-- The report dict: config snapshot, summary, and the `error_analysis`
dict (present only when failures occurred), read as the map from error key
to occurrence count that the insertion loop builds. -/
structure Report where
  config : Config
  summary : Summary
  error_analysis : Option (String → ℕ) := none

/-- Python r["latency"] as read by the aggregator: only applied to members of
`successful`, where the key always exists; the failure arm is unreachable
there. -/
def successLatency : RequestOutcome → ℚ
  | .success l _ _ => l
  | _ => 0

/-- Python r["tokens"] as read by the aggregator; same unreachability note as
`successLatency`. -/
def successTokens : RequestOutcome → ℕ
  | .success _ t _ => t
  | _ => 0

/-- Line 108: `result.get("status", "exception") or result.get("error",
"unknown")`, then `str(...)`.  A present nonzero (truthy) status wins; a
missing status yields the truthy default `"exception"` so the `or` never
reaches the error text; only a present zero (falsy) status falls through to
the error text, with `"unknown"` as the default for a missing error key. -/
def errorKey (r : RequestOutcome) : String :=
  match r.statusCode with
  | some code => if code ≠ 0 then toString code else r.errorText.getD "unknown"
  | none => "exception"

/-- The function generate_report (src/load_testing.py lines 74-113). -/
def generate_report (results : List RequestOutcome) (config : Config) : Report :=
  let successful := results.filter (·.isSuccess)
  let failed := results.length - successful.length
  let summary0 : Summary :=
    { total_requests := results.length
      concurrency := config.max_workers
      jitter := config.jitter
      success_rate :=
        if results.isEmpty then 0 else (successful.length : ℚ) / (results.length : ℚ)
      failed := failed }
  let summary :=
    if successful.isEmpty then summary0
    else
      let latencies := successful.map successLatency
      let tokens_list := successful.map successTokens
      let avg_latency : ℚ := latencies.sum / (latencies.length : ℚ)
      let total_tokens := tokens_list.sum
      { summary0 with
        avg_latency := some avg_latency
        min_latency := latencies.min?
        max_latency := latencies.max?
        total_tokens := some total_tokens
        avg_tokens_per_request := some ((total_tokens : ℚ) / (successful.length : ℚ))
        tokens_per_second :=
          some ((total_tokens : ℚ) / (avg_latency * (config.max_workers : ℚ))) }
  let error_analysis :=
    if 0 < failed then
      some fun key =>
        (results.filter fun r => !r.isSuccess).countP fun r => errorKey r == key
    else none
  { config := config, summary := summary, error_analysis := error_analysis }

/-! Section: Helper lemmas -/

/-- All three result shapes carry the `request_id` they were given. -/
theorem send_request_request_id (net : Payload → NetResult) (url prompt : String)
    (i max_tokens : ℕ) (t : ℚ) :
    (send_request net url prompt i max_tokens t).request_id = i := by
  rcases e : net (buildPayload prompt max_tokens t) with ⟨status, text, parsed, elapsed⟩ | msg
  · by_cases h : status = 200
    · rcases parsed with msg | content <;>
        simp [send_request, e, h, RequestOutcome.request_id]
    · simp [send_request, e, h, RequestOutcome.request_id]
  · simp [send_request, e, RequestOutcome.request_id]

/-- Python slice s[:200] yields at most 200 characters. -/
theorem pyTruncate_length_le (s : String) : (pyTruncate s).length ≤ 200 := by
  show (s.data.take 200).length ≤ 200
  simp [List.length_take]

/-! Section: C2: outcome count and request-id permutation -/

/-- C2: for every valid configuration (`total_requests ≥ 0`,
`concurrency ≥ 1`, `jitter ∈ [0,1]`) and every completion order the
executor may produce, the run yields exactly `total_requests` outcomes whose
`request_id`s are a permutation of `0..total_requests-1`, with no
duplicates. -/
theorem C2_request_ids (net : ℕ → Payload → NetResult) (url prompt : String)
    (total_requests max_workers : ℕ) (jitter : ℚ) (completionOrder : List ℕ)
    (hmw : 1 ≤ max_workers) (hj0 : 0 ≤ jitter) (hj1 : jitter ≤ 1)
    (horder : completionOrder.Perm (List.range total_requests)) :
    (parallel_execute_requests net url prompt total_requests max_workers jitter
      completionOrder).length = total_requests ∧
    ((parallel_execute_requests net url prompt total_requests max_workers jitter
      completionOrder).map RequestOutcome.request_id).Perm (List.range total_requests) ∧
    ((parallel_execute_requests net url prompt total_requests max_workers jitter
      completionOrder).map RequestOutcome.request_id).Nodup := by
  have hmap : (parallel_execute_requests net url prompt total_requests max_workers jitter
      completionOrder).map RequestOutcome.request_id = completionOrder := by
    unfold parallel_execute_requests
    rw [List.map_map]
    calc completionOrder.map (RequestOutcome.request_id ∘ fun i => send_request (net i) url prompt i)
        = completionOrder.map id :=
          List.map_congr_left fun a _ => send_request_request_id (net a) url prompt a 128 (7/10)
      _ = completionOrder := List.map_id completionOrder
  refine ⟨?_, ?_, ?_⟩
  · unfold parallel_execute_requests
    rw [List.length_map, horder.length_eq, List.length_range]
  · rw [hmap]; exact horder
  · rw [hmap]; exact horder.symm.nodup (List.nodup_range total_requests)

/-- Witness for C2 at `total_requests = 3`, `concurrency = 2`,
`jitter = 0`, completion order `[2, 0, 1]`. -/
theorem C2_witness :
    (parallel_execute_requests (fun _ _ => .failure "x") "u" "p" 3 2 0 [2, 0, 1]).length = 3 ∧
    ((parallel_execute_requests (fun _ _ => .failure "x") "u" "p" 3 2 0 [2, 0, 1]).map
      RequestOutcome.request_id).Perm (List.range 3) ∧
    ((parallel_execute_requests (fun _ _ => .failure "x") "u" "p" 3 2 0 [2, 0, 1]).map
      RequestOutcome.request_id).Nodup :=
  C2_request_ids (fun _ _ => .failure "x") "u" "p" 3 2 0 [2, 0, 1]
    (by decide) (by decide) (by decide) (by decide)

/-! Section: C6: all failure modes are captured as data -/

/-- C6: `send_request` is a total function into `RequestOutcome` (it never
raises past its boundary).  A non-success protocol status yields a failure
carrying that status code and at most 200 characters of the body; a
connection-level failure yields a failure carrying the exception text and no
status code; a malformed 200 response (decode or key-access error) likewise
yields a failure carrying the exception text and no status code; no failure
outcome carries a latency field. -/
theorem C6_failure_modes (net : Payload → NetResult) (url prompt : String)
    (request_id max_tokens : ℕ) (temperature : ℚ) :
    (∀ status text parsed elapsed,
        net (buildPayload prompt max_tokens temperature) =
          .response status text parsed elapsed →
        status ≠ 200 →
        send_request net url prompt request_id max_tokens temperature =
          .httpError status (if text.isEmpty then "" else pyTruncate text) request_id ∧
        ∀ e, (RequestOutcome.httpError status
              (if text.isEmpty then "" else pyTruncate text) request_id).errorText = some e →
          e.length ≤ 200) ∧
    (∀ msg, net (buildPayload prompt max_tokens temperature) = .failure msg →
        send_request net url prompt request_id max_tokens temperature =
          .transportError msg request_id ∧
        (RequestOutcome.transportError msg request_id).statusCode = none) ∧
    (∀ text msg elapsed,
        net (buildPayload prompt max_tokens temperature) =
          .response 200 text (.error msg) elapsed →
        send_request net url prompt request_id max_tokens temperature =
          .transportError msg request_id ∧
        (RequestOutcome.transportError msg request_id).statusCode = none ∧
        (RequestOutcome.transportError msg request_id).errorText = some msg) ∧
    ((send_request net url prompt request_id max_tokens temperature).isSuccess = false →
        (send_request net url prompt request_id max_tokens temperature).latencyVal = none) := by
  refine ⟨?_, ?_, ?_, ?_⟩
  · intro status text parsed elapsed hnet hs
    constructor
    · simp [send_request, hnet, hs]
    · intro e he
      simp only [RequestOutcome.errorText, Option.some.injEq] at he
      subst he
      by_cases ht : text.isEmpty <;> simp [ht, pyTruncate_length_le]
  · intro msg hnet
    constructor
    · simp [send_request, hnet]
    · rfl
  · intro text msg elapsed hnet
    refine ⟨?_, rfl, rfl⟩
    simp [send_request, hnet]
  · intro hfail
    rcases hout : send_request net url prompt request_id max_tokens temperature with
      ⟨l, tk, i⟩ | ⟨s, e, i⟩ | ⟨e, i⟩
    · rw [hout] at hfail
      simp [RequestOutcome.isSuccess] at hfail
    · rfl
    · rfl

/-- Witness for C6: a 500 response with body `"boom"`, a connection failure
`"timeout"`, and a malformed 200 response raising `"Expecting value"` all
map to the stated failure shapes. -/
theorem C6_witness :
    send_request (fun _ => .response 500 "boom" (.error "nope") 1) "u" "p" 7 128 (7/10) =
      .httpError 500 (if ("boom" : String).isEmpty then "" else pyTruncate "boom") 7 ∧
    send_request (fun _ => .failure "timeout") "u" "p" 7 128 (7/10) =
      .transportError "timeout" 7 ∧
    send_request (fun _ => .response 200 "garbage" (.error "Expecting value") 1) "u" "p"
        7 128 (7/10) =
      .transportError "Expecting value" 7 :=
  ⟨((C6_failure_modes (fun _ => .response 500 "boom" (.error "nope") 1) "u" "p" 7 128
      (7/10)).1 500 "boom" (.error "nope") 1 rfl (by decide)).1,
   ((C6_failure_modes (fun _ => .failure "timeout") "u" "p" 7 128 (7/10)).2.1
      "timeout" rfl).1,
   ((C6_failure_modes (fun _ => .response 200 "garbage" (.error "Expecting value") 1)
      "u" "p" 7 128 (7/10)).2.2.1 "garbage" "Expecting value" 1 rfl).1⟩

/-! Section: C7: payload contents -/

/-- C7: the payload built by the dispatcher carries the prompt as a single
user-role message, the configured sampling parameters (temperature and max
output tokens), and `stream = false`; and the result of the dispatcher depends
on the network only through exactly this payload. -/
theorem C7_payload_contents (prompt : String) (max_tokens : ℕ) (temperature : ℚ) :
    (buildPayload prompt max_tokens temperature).messages =
      [{ role := "user", content := prompt }] ∧
    (buildPayload prompt max_tokens temperature).temperature = temperature ∧
    (buildPayload prompt max_tokens temperature).max_tokens = max_tokens ∧
    (buildPayload prompt max_tokens temperature).stream = false ∧
    ∀ net net' : Payload → NetResult, ∀ url : String, ∀ request_id : ℕ,
      net (buildPayload prompt max_tokens temperature) =
        net' (buildPayload prompt max_tokens temperature) →
      send_request net url prompt request_id max_tokens temperature =
        send_request net' url prompt request_id max_tokens temperature := by
  refine ⟨rfl, rfl, rfl, rfl, ?_⟩
  intro net net' url request_id hsame
  simp only [send_request, hsame]

/-- Witness for C7: two oracles that differ only away from the built
payload produce the same outcome. -/
theorem C7_witness :
    send_request (fun _ => .failure "a") "u" "p" 0 128 (7/10) =
      send_request (fun p => if p.stream then .failure "b" else .failure "a") "u" "p" 0
        128 (7/10) :=
  (C7_payload_contents "p" 128 (7/10)).2.2.2.2 (fun _ => .failure "a")
    (fun p => if p.stream then .failure "b" else .failure "a") "u" 0 rfl

/-! Section: C9: token counting -/

/-- C9: on a successful response the token count of the outcome is the number of
whitespace-delimited substrings of the generated text, and the text
`"a b c"` splits into exactly `["a", "b", "c"]` (3 tokens). -/
theorem C9_token_count (net : Payload → NetResult) (url prompt text content : String)
    (request_id : ℕ) (elapsed : ℚ)
    (h : net (buildPayload prompt 128 (7/10)) = .response 200 text (.ok content) elapsed) :
    (send_request net url prompt request_id).tokensVal = some (pySplit content).length ∧
    pySplit "a b c" = ["a", "b", "c"] := by
  constructor
  · simp [send_request, h, RequestOutcome.tokensVal, tokenCount]
  · rfl

/-- Witness for C9: a concrete 200 response with content `"a b c"` yields
`token_count = 3`. -/
theorem C9_witness :
    (send_request (fun _ => .response 200 "raw" (.ok "a b c") 1) "u" "p" 0).tokensVal =
      some 3 :=
  (C9_token_count (fun _ => .response 200 "raw" (.ok "a b c") 1) "u" "p" "raw" "a b c" 0
    1 rfl).1

/-! Section: C10: success is exactly status 200 -/

/-- C10: the dispatcher classifies an outcome as success only when the HTTP
status is exactly 200; every other status (201, 204, ...) produces a
failure outcome carrying that status code. -/
theorem C10_success_only_200 (net : Payload → NetResult) (url prompt : String)
    (request_id max_tokens : ℕ) (temperature : ℚ)
    (status : ℕ) (text : String) (parsed : Except String String) (elapsed : ℚ)
    (h : net (buildPayload prompt max_tokens temperature) =
      .response status text parsed elapsed) :
    ((send_request net url prompt request_id max_tokens temperature).isSuccess = true →
      status = 200) ∧
    (status ≠ 200 →
      send_request net url prompt request_id max_tokens temperature =
        .httpError status (if text.isEmpty then "" else pyTruncate text) request_id) := by
  constructor
  · intro hsucc
    by_contra hne
    rw [show send_request net url prompt request_id max_tokens temperature =
        .httpError status (if text.isEmpty then "" else pyTruncate text) request_id by
      simp [send_request, h, hne]] at hsucc
    simp [RequestOutcome.isSuccess] at hsucc
  · intro hne
    simp [send_request, h, hne]

/-- Witness for C10: a 201 response (another 2xx status) yields a failure
outcome carrying status 201. -/
theorem C10_witness :
    send_request (fun _ => .response 201 "Created" (.ok "x") 1) "u" "p" 0 128 (7/10) =
      .httpError 201 (if ("Created" : String).isEmpty then "" else pyTruncate "Created") 0 :=
  (C10_success_only_200 (fun _ => .response 201 "Created" (.ok "x") 1) "u" "p" 0 128
    (7/10) 201 "Created" (.ok "x") 1 rfl).2 (by decide)

/-! Section: Aggregator field lemmas -/

/-- A shared example configuration for concrete witnesses. -/
def exampleConfig : Config :=
  { url := "http://localhost:8080/v1/chat/completions"
    prompt := "p"
    total_requests := 3
    max_workers := 2
    jitter := 0 }

theorem generate_report_success_rate (results : List RequestOutcome) (config : Config) :
    (generate_report results config).summary.success_rate =
      if results.isEmpty then 0
      else ((results.filter (·.isSuccess)).length : ℚ) / (results.length : ℚ) := by
  unfold generate_report
  dsimp only
  split <;> rfl

theorem generate_report_error_analysis (results : List RequestOutcome) (config : Config) :
    (generate_report results config).error_analysis =
      if 0 < results.length - (results.filter (·.isSuccess)).length then
        some fun key =>
          (results.filter fun r => !r.isSuccess).countP fun r => errorKey r == key
      else none := rfl

theorem generate_report_summary_none (results : List RequestOutcome) (config : Config)
    (h : results.filter (·.isSuccess) = []) :
    (generate_report results config).summary =
      { total_requests := results.length
        concurrency := config.max_workers
        jitter := config.jitter
        success_rate :=
          if results.isEmpty then 0
          else ((results.filter (·.isSuccess)).length : ℚ) / (results.length : ℚ)
        failed := results.length - (results.filter (·.isSuccess)).length } := by
  unfold generate_report
  dsimp only
  rw [if_pos (by simp [h])]

theorem generate_report_summary_some (results : List RequestOutcome) (config : Config)
    (h : results.filter (·.isSuccess) ≠ []) :
    (generate_report results config).summary =
      { total_requests := results.length
        concurrency := config.max_workers
        jitter := config.jitter
        success_rate :=
          if results.isEmpty then 0
          else ((results.filter (·.isSuccess)).length : ℚ) / (results.length : ℚ)
        failed := results.length - (results.filter (·.isSuccess)).length
        avg_latency := some (((results.filter (·.isSuccess)).map successLatency).sum /
          (((results.filter (·.isSuccess)).map successLatency).length : ℚ))
        min_latency := ((results.filter (·.isSuccess)).map successLatency).min?
        max_latency := ((results.filter (·.isSuccess)).map successLatency).max?
        total_tokens := some ((results.filter (·.isSuccess)).map successTokens).sum
        avg_tokens_per_request :=
          some ((((results.filter (·.isSuccess)).map successTokens).sum : ℚ) /
            ((results.filter (·.isSuccess)).length : ℚ))
        tokens_per_second :=
          some ((((results.filter (·.isSuccess)).map successTokens).sum : ℚ) /
            ((((results.filter (·.isSuccess)).map successLatency).sum /
              (((results.filter (·.isSuccess)).map successLatency).length : ℚ)) *
              (config.max_workers : ℚ))) } := by
  unfold generate_report
  dsimp only
  rw [if_neg (by simp [h])]

/-- Minimum over rationals is permutation invariant (Python min(list)). -/
theorem minQ_perm {l₁ l₂ : List ℚ} (h : l₁.Perm l₂) : l₁.min? = l₂.min? := by
  haveI anti : Std.Antisymm fun x y : ℚ => x ≤ y := ⟨fun h1 h2 => le_antisymm h1 h2⟩
  cases l₁ with
  | nil =>
    have h2 : l₂ = [] := h.symm.eq_nil
    rw [h2]
  | cons x xs =>
    cases l₂ with
    | nil => exact absurd h.eq_nil (List.cons_ne_nil x xs)
    | cons y ys =>
      have ha : (x :: xs).min? = some (xs.foldl min x) := rfl
      have hb : (y :: ys).min? = some (ys.foldl min y) := rfl
      obtain ⟨hamem, hale⟩ :=
        (List.min?_eq_some_iff (fun a => le_refl a) (fun a b => min_choice a b)
          (fun a b c => le_min_iff)).mp ha
      obtain ⟨hbmem, hble⟩ :=
        (List.min?_eq_some_iff (fun a => le_refl a) (fun a b => min_choice a b)
          (fun a b c => le_min_iff)).mp hb
      rw [ha, hb]
      exact congrArg some (le_antisymm (hale _ (h.mem_iff.mpr hbmem))
        (hble _ (h.mem_iff.mp hamem)))

/-- Maximum over rationals is permutation invariant (Python max(list)). -/
theorem maxQ_perm {l₁ l₂ : List ℚ} (h : l₁.Perm l₂) : l₁.max? = l₂.max? := by
  haveI anti : Std.Antisymm fun x y : ℚ => x ≤ y := ⟨fun h1 h2 => le_antisymm h1 h2⟩
  cases l₁ with
  | nil =>
    have h2 : l₂ = [] := h.symm.eq_nil
    rw [h2]
  | cons x xs =>
    cases l₂ with
    | nil => exact absurd h.eq_nil (List.cons_ne_nil x xs)
    | cons y ys =>
      have ha : (x :: xs).max? = some (xs.foldl max x) := rfl
      have hb : (y :: ys).max? = some (ys.foldl max y) := rfl
      obtain ⟨hamem, hale⟩ :=
        (List.max?_eq_some_iff (fun a => le_refl a) (fun a b => max_choice a b)
          (fun a b c => max_le_iff)).mp ha
      obtain ⟨hbmem, hble⟩ :=
        (List.max?_eq_some_iff (fun a => le_refl a) (fun a b => max_choice a b)
          (fun a b c => max_le_iff)).mp hb
      rw [ha, hb]
      exact congrArg some (le_antisymm (hble _ (h.mem_iff.mp hamem))
        (hale _ (h.mem_iff.mpr hbmem)))

/-! Section: C3: success rate -/

/-- C3: the success rate equals `|successes| / |outcomes|`, always lies in
`[0,1]`, is 0 for the empty outcome list (no division by zero), and is 1
when every outcome of a (nonempty) run is a success. -/
theorem C3_success_rate (results : List RequestOutcome) (config : Config) :
    (results ≠ [] →
      (generate_report results config).summary.success_rate =
        ((results.filter (·.isSuccess)).length : ℚ) / (results.length : ℚ)) ∧
    (0 ≤ (generate_report results config).summary.success_rate ∧
      (generate_report results config).summary.success_rate ≤ 1) ∧
    (generate_report [] config).summary.success_rate = 0 ∧
    (results ≠ [] → (∀ r ∈ results, r.isSuccess = true) →
      (generate_report results config).summary.success_rate = 1) := by
  refine ⟨?_, ⟨?_, ?_⟩, ?_, ?_⟩
  · intro hne
    rw [generate_report_success_rate, if_neg (by simp [List.isEmpty_iff, hne])]
  · rw [generate_report_success_rate]
    split
    · exact le_refl 0
    · positivity
  · rw [generate_report_success_rate]
    rcases results with _ | ⟨a, l⟩
    · simp
    · rw [if_neg (by simp)]
      rw [div_le_one (by exact_mod_cast l.length.succ_pos)]
      exact_mod_cast List.length_filter_le _ _
  · rw [generate_report_success_rate]
    simp
  · intro hne hall
    rw [generate_report_success_rate,
      if_neg (by simp [List.isEmpty_iff, hne]), List.filter_eq_self.mpr hall]
    have hlen : results.length ≠ 0 := fun h0 => hne (List.length_eq_zero.mp h0)
    exact div_self (Nat.cast_ne_zero.mpr hlen)

/-- Witness for C3: a single successful outcome gives rate
`|successes| / |outcomes|`, which is 1. -/
theorem C3_witness :
    (generate_report [RequestOutcome.success 1 3 0] exampleConfig).summary.success_rate =
      ((([RequestOutcome.success 1 3 0] : List RequestOutcome).filter
        (·.isSuccess)).length : ℚ) /
        (([RequestOutcome.success 1 3 0] : List RequestOutcome).length : ℚ) ∧
    (generate_report [RequestOutcome.success 1 3 0] exampleConfig).summary.success_rate
      = 1 :=
  ⟨(C3_success_rate [RequestOutcome.success 1 3 0] exampleConfig).1 (by simp),
   (C3_success_rate [RequestOutcome.success 1 3 0] exampleConfig).2.2.2 (by simp)
     (by decide)⟩

/-! Section: C4: presence of optional report sections -/

/-- C4: the six latency/token summary fields are present if and only if at
least one success exists, and the error histogram is present if and only if
at least one failure exists; both all-failure and all-success runs produce a
well-formed Report. -/
theorem C4_presence (results : List RequestOutcome) (config : Config) :
    ((generate_report results config).summary.avg_latency.isSome = true ↔
      ∃ r ∈ results, r.isSuccess = true) ∧
    ((generate_report results config).summary.min_latency.isSome = true ↔
      ∃ r ∈ results, r.isSuccess = true) ∧
    ((generate_report results config).summary.max_latency.isSome = true ↔
      ∃ r ∈ results, r.isSuccess = true) ∧
    ((generate_report results config).summary.total_tokens.isSome = true ↔
      ∃ r ∈ results, r.isSuccess = true) ∧
    ((generate_report results config).summary.avg_tokens_per_request.isSome = true ↔
      ∃ r ∈ results, r.isSuccess = true) ∧
    ((generate_report results config).summary.tokens_per_second.isSome = true ↔
      ∃ r ∈ results, r.isSuccess = true) ∧
    ((generate_report results config).error_analysis.isSome = true ↔
      ∃ r ∈ results, r.isSuccess = false) := by
  have hex : (results.filter (·.isSuccess) ≠ []) ↔ ∃ r ∈ results, r.isSuccess = true := by
    rw [Ne, List.filter_eq_nil_iff]
    simp
  have hfail : (0 < results.length - (results.filter (·.isSuccess)).length) ↔
      ∃ r ∈ results, r.isSuccess = false := by
    rw [Nat.sub_pos_iff_lt, List.length_filter_lt_length_iff_exists]
    simp
  have herr : (generate_report results config).error_analysis.isSome = true ↔
      ∃ r ∈ results, r.isSuccess = false := by
    rw [generate_report_error_analysis]
    by_cases hf : 0 < results.length - (results.filter (·.isSuccess)).length
    · simp [hf, hfail.mp hf]
    · have hno : ¬∃ r ∈ results, r.isSuccess = false := fun hx => hf (hfail.mpr hx)
      simp [hf, hno]
  by_cases hs : results.filter (·.isSuccess) = []
  · have hnone : ¬∃ r ∈ results, r.isSuccess = true := fun hx => (hex.mpr hx) hs
    refine ⟨?_, ?_, ?_, ?_, ?_, ?_, herr⟩ <;>
      simp [generate_report_summary_none results config hs, hnone]
  · have hsome : ∃ r ∈ results, r.isSuccess = true := hex.mp hs
    rcases e : results.filter (·.isSuccess) with _ | ⟨a, l⟩
    · exact absurd e hs
    refine ⟨?_, ?_, ?_, ?_, ?_, ?_, herr⟩ <;>
      simp [generate_report_summary_some results config hs, e, List.min?, List.max?,
        hsome]

/-! Section: C5: success statistics formulas -/

/-- C5: with at least one success, the statistics of the report are the
arithmetic mean of the success latencies, their minimum and maximum, the
sum of success token counts, that sum divided by the success count, and
that sum divided by (mean latency × concurrency). -/
theorem C5_success_stats (results : List RequestOutcome) (config : Config)
    (h : results.filter (·.isSuccess) ≠ []) :
    (generate_report results config).summary.avg_latency =
      some (((results.filter (·.isSuccess)).map successLatency).sum /
        (((results.filter (·.isSuccess)).map successLatency).length : ℚ)) ∧
    (∃ m, (generate_report results config).summary.min_latency = some m ∧
      m ∈ (results.filter (·.isSuccess)).map successLatency ∧
      ∀ y ∈ (results.filter (·.isSuccess)).map successLatency, m ≤ y) ∧
    (∃ M, (generate_report results config).summary.max_latency = some M ∧
      M ∈ (results.filter (·.isSuccess)).map successLatency ∧
      ∀ y ∈ (results.filter (·.isSuccess)).map successLatency, y ≤ M) ∧
    (generate_report results config).summary.total_tokens =
      some ((results.filter (·.isSuccess)).map successTokens).sum ∧
    (generate_report results config).summary.avg_tokens_per_request =
      some ((((results.filter (·.isSuccess)).map successTokens).sum : ℚ) /
        ((results.filter (·.isSuccess)).length : ℚ)) ∧
    (generate_report results config).summary.tokens_per_second =
      some ((((results.filter (·.isSuccess)).map successTokens).sum : ℚ) /
        ((((results.filter (·.isSuccess)).map successLatency).sum /
          (((results.filter (·.isSuccess)).map successLatency).length : ℚ)) *
          (config.max_workers : ℚ))) := by
  haveI anti : Std.Antisymm fun x y : ℚ => x ≤ y := ⟨fun h1 h2 => le_antisymm h1 h2⟩
  rw [generate_report_summary_some results config h]
  refine ⟨rfl, ?_, ?_, rfl, rfl, rfl⟩
  · rcases e : results.filter (·.isSuccess) with _ | ⟨a, l⟩
    · exact absurd e h
    rw [e]
    have hmin : ((a :: l).map successLatency).min? =
        some ((l.map successLatency).foldl min (successLatency a)) := rfl
    obtain ⟨hmem, hle⟩ :=
      (List.min?_eq_some_iff (fun a => le_refl a) (fun a b => min_choice a b)
        (fun a b c => le_min_iff)).mp hmin
    exact ⟨_, hmin, hmem, hle⟩
  · rcases e : results.filter (·.isSuccess) with _ | ⟨a, l⟩
    · exact absurd e h
    rw [e]
    have hmax : ((a :: l).map successLatency).max? =
        some ((l.map successLatency).foldl max (successLatency a)) := rfl
    obtain ⟨hmem, hle⟩ :=
      (List.max?_eq_some_iff (fun a => le_refl a) (fun a b => max_choice a b)
        (fun a b c => max_le_iff)).mp hmax
    exact ⟨_, hmax, hmem, hle⟩

/-- Witness for C5: two successes with latencies 2 and 4 and token counts
5 and 7, at concurrency 2: mean latency 3, total 12 tokens, 6 tokens per
request, 2 tokens per second. -/
theorem C5_witness :
    (generate_report [RequestOutcome.success 2 5 0, RequestOutcome.success 4 7 1,
        RequestOutcome.httpError 500 "e" 2] exampleConfig).summary.avg_latency =
      some 3 ∧
    (generate_report [RequestOutcome.success 2 5 0, RequestOutcome.success 4 7 1,
        RequestOutcome.httpError 500 "e" 2] exampleConfig).summary.total_tokens =
      some 12 ∧
    (generate_report [RequestOutcome.success 2 5 0, RequestOutcome.success 4 7 1,
        RequestOutcome.httpError 500 "e" 2] exampleConfig).summary.avg_tokens_per_request =
      some 6 ∧
    (generate_report [RequestOutcome.success 2 5 0, RequestOutcome.success 4 7 1,
        RequestOutcome.httpError 500 "e" 2] exampleConfig).summary.tokens_per_second =
      some 2 := by
  have hc := C5_success_stats [RequestOutcome.success 2 5 0, RequestOutcome.success 4 7 1,
    RequestOutcome.httpError 500 "e" 2] exampleConfig (by decide)
  exact ⟨hc.1.trans (by norm_num [List.filter, RequestOutcome.isSuccess, successLatency,
      successTokens, exampleConfig]),
    hc.2.2.2.1.trans (by decide),
    hc.2.2.2.2.1.trans (by norm_num [List.filter, RequestOutcome.isSuccess,
      successLatency, successTokens, exampleConfig]),
    hc.2.2.2.2.2.trans (by norm_num [List.filter, RequestOutcome.isSuccess,
      successLatency, successTokens, exampleConfig])⟩

/-! Section: C8: the aggregator is pure and permutation invariant -/

/-- C8: `generate_report` is a function of its two arguments alone, and its
value is invariant under permutation of the outcome list. -/
theorem C8_perm_invariant (results results' : List RequestOutcome) (config : Config)
    (h : results.Perm results') :
    generate_report results config = generate_report results' config := by
  have hflt : (results.filter (·.isSuccess)).Perm (results'.filter (·.isSuccess)) :=
    h.filter (·.isSuccess)
  have hfailp : (results.filter fun r => !r.isSuccess).Perm
      (results'.filter fun r => !r.isSuccess) := h.filter fun r => !r.isSuccess
  have hlen : results.length = results'.length := h.length_eq
  have hslen : (results.filter (·.isSuccess)).length =
      (results'.filter (·.isSuccess)).length := hflt.length_eq
  have hlat : ((results.filter (·.isSuccess)).map successLatency).Perm
      ((results'.filter (·.isSuccess)).map successLatency) := hflt.map successLatency
  have htok : ((results.filter (·.isSuccess)).map successTokens).Perm
      ((results'.filter (·.isSuccess)).map successTokens) := hflt.map successTokens
  have hlatsum := hlat.sum_eq
  have htoksum := htok.sum_eq
  have hmin := minQ_perm hlat
  have hmax := maxQ_perm hlat
  have hempty : results.isEmpty = results'.isEmpty := by
    rw [Bool.eq_iff_iff, List.isEmpty_iff, List.isEmpty_iff, ← List.length_eq_zero,
      ← List.length_eq_zero, hlen]
  have hcount : (fun key => (results.filter fun r => !r.isSuccess).countP
        fun r => errorKey r == key) =
      fun key => (results'.filter fun r => !r.isSuccess).countP
        fun r => errorKey r == key :=
    funext fun key => List.Perm.countP_eq _ hfailp
  have hsum : (generate_report results config).summary =
      (generate_report results' config).summary := by
    by_cases hs : results.filter (·.isSuccess) = []
    · have hs' : results'.filter (·.isSuccess) = [] := by
        rw [← List.length_eq_zero, ← hslen, List.length_eq_zero]
        exact hs
      rw [generate_report_summary_none results config hs,
        generate_report_summary_none results' config hs', hlen, hslen, hempty]
    · have hs' : results'.filter (·.isSuccess) ≠ [] := by
        rw [Ne, ← List.length_eq_zero, ← hslen, List.length_eq_zero]
        exact hs
      rw [generate_report_summary_some results config hs,
        generate_report_summary_some results' config hs']
      simp only [List.length_map]
      rw [hlen, hslen, hlatsum, htoksum, hmin, hmax, hempty]
  have herr : (generate_report results config).error_analysis =
      (generate_report results' config).error_analysis := by
    rw [generate_report_error_analysis, generate_report_error_analysis, hlen, hslen,
      hcount]
  show (⟨config, (generate_report results config).summary,
      (generate_report results config).error_analysis⟩ : Report) =
    ⟨config, (generate_report results' config).summary,
      (generate_report results' config).error_analysis⟩
  rw [hsum, herr]

/-- Witness for C8: swapping a success and a failure outcome leaves the
report unchanged. -/
theorem C8_witness :
    generate_report [RequestOutcome.success 1 2 0, RequestOutcome.transportError "t" 1]
        exampleConfig =
      generate_report [RequestOutcome.transportError "t" 1, RequestOutcome.success 1 2 0]
        exampleConfig :=
  C8_perm_invariant [RequestOutcome.success 1 2 0, RequestOutcome.transportError "t" 1]
    [RequestOutcome.transportError "t" 1, RequestOutcome.success 1 2 0] exampleConfig
    (by decide)

/-! Section: C1: the error histogram -/

/-- C1 counterexample: three transport failures whose error text is
`"Connection refused"` are all keyed `"exception"`, not by the transport
error text as the claim states: the histogram gives 0 to the key
`"Connection refused"` and 3 to `"exception"`. -/
theorem C1_counterexample :
    ((generate_report
        [RequestOutcome.transportError "Connection refused" 0,
          RequestOutcome.transportError "Connection refused" 1,
          RequestOutcome.transportError "Connection refused" 2]
        exampleConfig).error_analysis.map fun f =>
      (f "Connection refused", f "exception")) = some (0, 3) := by
  rfl

/-- C1 (amended): with at least one failure the histogram is present, its
counts sum exactly to the number of failed outcomes, a failed outcome with a
(nonzero) status code is keyed by the decimal string of the code, and a failed
outcome with no status code is keyed by the literal `"exception"` (the
transport error text is never used as a key; the error text and `"unknown"`
fallbacks are reachable only for a present-but-zero status code). -/
theorem C1_amended_histogram (results : List RequestOutcome) (config : Config)
    (h : (results.filter fun r => !r.isSuccess) ≠ []) :
    ∃ f, (generate_report results config).error_analysis = some f ∧
      (((results.filter fun r => !r.isSuccess).map errorKey).dedup.map f).sum =
        (results.filter fun r => !r.isSuccess).length ∧
      (∀ s body i, s ≠ 0 →
        errorKey (RequestOutcome.httpError s body i) = toString s) ∧
      ∀ msg i, errorKey (RequestOutcome.transportError msg i) = "exception" := by
  have hpos : 0 < results.length - (results.filter (·.isSuccess)).length := by
    rcases List.exists_mem_of_ne_nil _ h with ⟨x, hx⟩
    rw [List.mem_filter] at hx
    refine Nat.sub_pos_of_lt (List.length_filter_lt_length_iff_exists.mpr ⟨x, hx.1, ?_⟩)
    intro hxt
    rw [hxt] at hx
    exact absurd hx.2 (by decide)
  refine ⟨fun key => (results.filter fun r => !r.isSuccess).countP
      fun r => errorKey r == key, ?_, ?_, ?_, ?_⟩
  · rw [generate_report_error_analysis, if_pos hpos]
  · have hf : ∀ k, (results.filter fun r => !r.isSuccess).countP
        (fun r => errorKey r == k) =
        ((results.filter fun r => !r.isSuccess).map errorKey).count k := by
      intro k
      rw [List.count_eq_countP, List.countP_map]
      rfl
    calc (((results.filter fun r => !r.isSuccess).map errorKey).dedup.map
          fun key => (results.filter fun r => !r.isSuccess).countP
            fun r => errorKey r == key).sum
        = (((results.filter fun r => !r.isSuccess).map errorKey).dedup.map
            fun key => ((results.filter fun r => !r.isSuccess).map errorKey).count
              key).sum :=
          congrArg List.sum (List.map_congr_left fun k _ => hf k)
      _ = ((results.filter fun r => !r.isSuccess).map errorKey).length :=
          List.sum_map_count_dedup_eq_length _
      _ = (results.filter fun r => !r.isSuccess).length := List.length_map _ _
  · intro s body i hs
    simp [errorKey, RequestOutcome.statusCode, RequestOutcome.errorText, hs]
  · intro msg i
    rfl

/-- Witness for C1 (amended): one HTTP 500 failure and one transport
failure give a histogram summing to 2, keyed `"500"` and `"exception"`. -/
theorem C1_witness :
    ∃ f, (generate_report [RequestOutcome.httpError 500 "oops" 0,
        RequestOutcome.transportError "timeout" 1] exampleConfig).error_analysis =
        some f ∧
      ((([RequestOutcome.httpError 500 "oops" 0,
          RequestOutcome.transportError "timeout" 1].filter
            fun r => !r.isSuccess).map errorKey).dedup.map f).sum =
        ([RequestOutcome.httpError 500 "oops" 0,
          RequestOutcome.transportError "timeout" 1].filter
            fun r => !r.isSuccess).length ∧
      (∀ s body i, s ≠ 0 →
        errorKey (RequestOutcome.httpError s body i) = toString s) ∧
      ∀ msg i, errorKey (RequestOutcome.transportError msg i) = "exception" :=
  C1_amended_histogram [RequestOutcome.httpError 500 "oops" 0,
    RequestOutcome.transportError "timeout" 1] exampleConfig (by decide)

end LoadTesting
